import Mathlib

/-!
# Verification of the important-email-alerter triage core

Shallow embedding of the triage pipeline of `jodavis21/important-email-alerter`:
suppression lists (`app/models/blacklist.py`, whitelist), the feedback ledger
(`app/models/learned_patterns.py`), the importance-classifier adapter
(`app/services/claude_analyzer.py`), the orchestrator step
(`app/services/email_processor.py`), the digest aggregator
(`app/services/digest_service.py`) and the feedback-submission endpoint
(`app/routes/api.py`).

Scores and adjustments are modelled as exact rationals (`ℚ`); the Python code
uses floats, and all the numeric constants involved (0.15, 0.5, thresholds)
are taken at their exact decimal values.  Python's `round(x, 2)` is modelled
as round-half-to-even at two decimal places on the exact value.  Database
tables are modelled as in-memory lists in insertion (rowid) order, and the
SQLAlchemy session as explicit state passing; a query's `ORDER BY score DESC`
is modelled as a stable descending sort, matching the engine's rowid scan
order for ties.
-/

namespace EmailAlerter

/-- `email_lower.split("@")[-1] if "@" in email_lower else ""` -- the substring
after the last `'@'`, or `""` when there is no `'@'`. -/
def afterLastAt (s : String) : String :=
  if s.contains '@' then (s.splitOn "@").getLastD "" else ""

/-- `s.lower().strip()` -- normalisation applied to addresses throughout. -/
def normalizeAddr (s : String) : String := s.toLower.trim

/-- Kind of a suppression-list entry: `entry_type` is `'email'` or `'domain'`. -/
inductive EntryKind
  | email
  | domain
deriving DecidableEq, Repr

/-- One allow-list/deny-list row (`BlacklistEntry` / `WhitelistEntry`). -/
structure ListEntry where
  kind : EntryKind
  value : String
  isActive : Bool
deriving DecidableEq, Repr

/-- `BlacklistEntry.is_blacklisted` (src/app/models/blacklist.py): exact
active email-kind match on the lowercased, trimmed address, else an active
domain-kind match on the part after the last `'@'` when that is nonempty. -/
def is_blacklisted (entries : List ListEntry) (email : String) : Bool :=
  let emailLower := normalizeAddr email
  let domain := afterLastAt emailLower
  if entries.any (fun x => x.kind == .email && x.value == emailLower && x.isActive) then
    true
  else if domain != "" then
    entries.any (fun x => x.kind == .domain && x.value == domain && x.isActive)
  else
    false

/-- Modelled from the spec: `WhitelistEntry.is_whitelisted` -- the module
`app/models/whitelist.py` is imported by the orchestrator but absent from the
sources; §4.1 specifies `isAllowed` as the exact mirror of `isDenied`: an
active exact email-kind entry equal to the lowercased, trimmed address, or an
active domain-kind entry equal to the part after the last `'@'`. -/
def is_whitelisted (entries : List ListEntry) (email : String) : Bool :=
  let emailLower := normalizeAddr email
  let domain := afterLastAt emailLower
  entries.any (fun x => x.kind == .email && x.value == emailLower && x.isActive) ||
    (domain != "" &&
      entries.any (fun x => x.kind == .domain && x.value == domain && x.isActive))

/-- One `learned_patterns` row. -/
structure LearnedPattern where
  patternType : String
  patternValue : String
  score_adjustment : ℚ
  feedback_count : ℕ
deriving DecidableEq, Repr

/-- `LearnedPattern.get_adjustment`: first row whose `pattern_type` matches and
whose `pattern_value` equals `value.lower()`. -/
def get_adjustment (ps : List LearnedPattern) (patternType patternValue : String) :
    Option LearnedPattern :=
  ps.find? fun p => p.patternType == patternType && p.patternValue == patternValue.toLower

/-- `LearnedPattern.get_total_adjustment`: sender-pattern adjustment plus
domain-pattern adjustment, each 0 when absent. -/
def get_total_adjustment (ps : List LearnedPattern) (email : String) : ℚ :=
  let emailLower := normalizeAddr email
  let domain := afterLastAt emailLower
  let senderAdj :=
    match get_adjustment ps "sender" emailLower with
    | some p => p.score_adjustment
    | none => 0
  let domainAdj :=
    if domain != "" then
      match get_adjustment ps "domain" domain with
      | some p => p.score_adjustment
      | none => 0
    else 0
  senderAdj + domainAdj

/-- The in-place update of an existing pattern in
`LearnedPattern.record_feedback`: the count is incremented first, then
`weight = min(0.5, 1/new_count)` and the adjustment becomes the weighted
average `old*(1-weight) + delta*weight`. -/
def update_pattern (p : LearnedPattern) (adjustment : ℚ) : LearnedPattern :=
  let newCount := p.feedback_count + 1
  let weight := min (1/2 : ℚ) (1 / (newCount : ℚ))
  { p with
    feedback_count := newCount
    score_adjustment := p.score_adjustment * (1 - weight) + adjustment * weight }

/-- `LearnedPattern.record_feedback`: update the first row matching
`(pattern_type, pattern_value.lower().strip())` in place, or append a fresh
row with `count = 1` and `adjustment = delta`.  Returns the new table together
with the created/updated pattern (the Python method returns the pattern). -/
def record_feedback (ps : List LearnedPattern) (patternType patternValue : String)
    (adjustment : ℚ) : List LearnedPattern × LearnedPattern :=
  let v := patternValue.toLower.trim
  match ps with
  | [] =>
      let fresh : LearnedPattern :=
        { patternType := patternType, patternValue := v
          score_adjustment := adjustment, feedback_count := 1 }
      ([fresh], fresh)
  | p :: rest =>
      if p.patternType == patternType && p.patternValue == v then
        (update_pattern p adjustment :: rest, update_pattern p adjustment)
      else
        (p :: (record_feedback rest patternType patternValue adjustment).1,
          (record_feedback rest patternType patternValue adjustment).2)

/-- Round-half-to-even to an integer, Python's `round` on an exact value. -/
def roundHalfEven (q : ℚ) : ℤ :=
  if q - (⌊q⌋ : ℚ) < 1/2 then ⌊q⌋
  else if 1/2 < q - (⌊q⌋ : ℚ) then ⌊q⌋ + 1
  else if ⌊q⌋ % 2 = 0 then ⌊q⌋ else ⌊q⌋ + 1

/-- Python's `round(x, 2)` on an exact decimal value. -/
def pythonRound2 (q : ℚ) : ℚ := (roundHalfEven (q * 100) : ℚ) / 100

/-! ## Importance classifier adapter (`app/services/claude_analyzer.py`) -/

/-- Days per month, with Gregorian leap years -- the validity check performed
by `datetime.strptime(date_str, "%Y-%m-%d")`. -/
def daysInMonth (y m : ℕ) : ℕ :=
  if m = 2 then
    if (y % 4 = 0 ∧ y % 100 ≠ 0) ∨ y % 400 = 0 then 29 else 28
  else if m = 4 ∨ m = 6 ∨ m = 9 ∨ m = 11 then 30
  else 31

/-- `datetime.strptime(date_str, "%Y-%m-%d")`: parse an ISO `Y-M-D` date,
`none` on any `ValueError`. -/
def parseISODate (s : String) : Option (ℕ × ℕ × ℕ) :=
  match s.splitOn "-" with
  | [ys, ms, ds] =>
      match ys.toNat?, ms.toNat?, ds.toNat? with
      | some y, some m, some d =>
          if 1 ≤ m ∧ m ≤ 12 ∧ 1 ≤ d ∧ d ≤ daysInMonth y m then some (y, m, d)
          else none
      | _, _, _ => none
  | _ => none

/-- The `deadline` object of the oracle's JSON, when it is a dict:
`text` and `date` fields, each possibly missing. -/
structure RawDeadline where
  text : Option String
  date : Option String
deriving DecidableEq, Repr

/-- A successfully JSON-decoded oracle response: each field as returned by
`result.get(...)`, `none` when missing.  `deadline := none` models both a
JSON `null` and a non-dict value (the code requires
`deadline_data and isinstance(deadline_data, dict)`). -/
structure RawOracleResult where
  score : Option ℚ
  reason : Option String
  category : Option String
  suggested_action : Option String
  deadline : Option RawDeadline
deriving DecidableEq, Repr

/-- Outcome of the oracle call as observed by `analyze_email`'s handlers:
a decodable response, a `json.JSONDecodeError`, or an `anthropic.APIError`
(transport/auth). -/
inductive OracleResponse
  | parsed (r : RawOracleResult)
  | malformed
  | apiError
deriving DecidableEq, Repr

/-- `ImportanceAnalysis` dataclass. -/
structure ImportanceAnalysis where
  score : ℚ
  reason : String
  category : String
  suggested_action : String
  deadline_date : Option (ℕ × ℕ × ℕ) := none
  deadline_text : Option String := none
deriving DecidableEq, Repr

/-- `ClaudeAnalyzer.analyze_email` (src/app/services/claude_analyzer.py,
lines 124-210).  `patterns`/`hasDb` stand for `self.db_session`; transport
errors are re-raised (`Except.error`), JSON decode errors fall back to a
neutral analysis, and on a parsed result the score is boosted for
whitelisted senders, shifted by the learned adjustment (clamped only when
that adjustment is nonzero), and the deadline date is parsed best-effort. -/
def analyze_email (patterns : List LearnedPattern) (hasDb : Bool)
    (sender_email : String) (is_whitelisted : Bool)
    (response : OracleResponse) : Except Unit ImportanceAnalysis :=
  match response with
  | .apiError => .error ()
  | .malformed =>
      .ok
        { score := if is_whitelisted then 65/100 else 1/2
          reason := "Analysis parsing failed - manual review recommended"
          category := "normal"
          suggested_action := "Manual review recommended" }
  | .parsed r =>
      let score0 : ℚ := r.score.getD (1/2)
      let score1 : ℚ :=
        if is_whitelisted then min 1 (score0 + 15/100) else score0
      let learnedAdjustment : ℚ :=
        if hasDb then get_total_adjustment patterns sender_email else 0
      let score2 : ℚ :=
        if hasDb ∧ learnedAdjustment ≠ 0 then
          max 0 (min 1 (score1 + learnedAdjustment))
        else score1
      let deadlinePair : Option (ℕ × ℕ × ℕ) × Option String :=
        match r.deadline with
        | none => (none, none)
        | some dl =>
            let dd :=
              match dl.date with
              | none => none
              | some ds => if ds ≠ "" then parseISODate ds else none
            (dd, dl.text)
      .ok
        { score := score2
          reason := r.reason.getD "Unable to determine importance"
          category := r.category.getD "normal"
          suggested_action := r.suggested_action.getD "Review when convenient"
          deadline_date := deadlinePair.1
          deadline_text := deadlinePair.2 }

/-! ## Orchestrator (`app/services/email_processor.py`) -/

/-- An `EmailMessage` as produced by the fetch collaborator. -/
structure EmailMessage where
  message_id : String
  thread_id : String
  sender_email : String
  sender_name : Option String
  subject : String
  body_text : String
deriving DecidableEq, Repr

/-- A `processed_emails` row.  `arrival` is the rowid (insertion order);
`notifications` the ids of `notification_log` rows linked to this record. -/
structure ProcessedEmailRec where
  gmail_account_id : ℕ
  message_id : String
  thread_id : String
  sender_email : String
  sender_name : Option String
  subject : String
  is_whitelisted : Bool
  importance_score : ℚ
  importance_reason : String
  notification_sent : Bool := false
  notification_sent_at : Option ℕ := none
  detected_deadline : Option (ℕ × ℕ × ℕ) := none
  deadline_text : Option String := none
  digest_eligible : Bool := false
  digest_sent : Bool := false
  digest_sent_at : Option ℕ := none
  notifications : List ℕ := []
  arrival : ℕ
deriving DecidableEq, Repr

/-- A `notification_log` row. -/
structure NotificationLogRec where
  id : ℕ
  notification_type : String
  title : String
  message : String
  priority : ℤ
  status : String
  error_message : Option String := none
deriving DecidableEq, Repr

/-- The persistent state the pipeline reads and writes. -/
structure DbState where
  blacklist : List ListEntry
  whitelist : List ListEntry
  patterns : List LearnedPattern
  records : List ProcessedEmailRec
  logs : List NotificationLogRec
  nextLogId : ℕ := 0
deriving Repr

/-- Configuration of `EmailProcessor` (constructor defaults). -/
structure ProcessorConfig where
  importance_threshold : ℚ := 7/10
  digest_enabled : Bool := true
  digest_threshold_low : ℚ := 1/2
  digest_threshold_high : ℚ := 69/100
deriving Repr

/-- Routing decision, the three-way branch of `_process_single_email`
lines 260-302. -/
inductive Route
  | notify
  | digest
  | ignore
deriving DecidableEq, Repr

/-- The routing decision engine: `if analysis.score >= importance_threshold`
notify; `elif digest_enabled and low <= score <= high` digest; else ignore. -/
def routeScore (cfg : ProcessorConfig) (score : ℚ) : Route :=
  if score ≥ cfg.importance_threshold then .notify
  else if cfg.digest_enabled ∧ cfg.digest_threshold_low ≤ score ∧
      score ≤ cfg.digest_threshold_high then .digest
  else .ignore

/-- Calls made to external collaborators during one per-message step. -/
structure StepCounts where
  classifier_calls : ℕ := 0
  dispatch_calls : ℕ := 0
deriving DecidableEq, Repr

/-- Result of one per-message step: the new database state, the
`ProcessedEmail` returned (none when suppressed or skipped), the collaborator
calls made, and whether an exception propagated out of the step. -/
structure StepOutcome where
  state : DbState
  record : Option ProcessedEmailRec
  counts : StepCounts
  failed : Bool := false

/-- Result of a Pushover send attempt (collaborator outcome, a parameter). -/
structure SendResult where
  success : Bool
  receipt : Option String := none
  error : Option String := none
deriving DecidableEq, Repr

/-- `EmailProcessor._process_single_email` (lines 206-311): deny-list check
first (short-circuits with no record and no classifier call), whitelist
lookup, classification (a transport error propagates with nothing persisted),
record construction with the score rounded to two decimals, then the routing
branch: notify dispatches and logs, digest marks `digest_eligible`, ignore
just persists the record.  `now` is the clock; `send` the transport outcome. -/
def processSingleEmail (cfg : ProcessorConfig) (st : DbState) (accountId : ℕ)
    (email : EmailMessage) (oracle : OracleResponse) (send : SendResult)
    (now : ℕ) : StepOutcome :=
  if is_blacklisted st.blacklist email.sender_email then
    { state := st, record := none, counts := {} }
  else
    let isW := is_whitelisted st.whitelist email.sender_email
    match analyze_email st.patterns true email.sender_email isW oracle with
    | .error _ =>
        { state := st, record := none, counts := { classifier_calls := 1 }
          failed := true }
    | .ok analysis =>
        let processed : ProcessedEmailRec :=
          { gmail_account_id := accountId
            message_id := email.message_id
            thread_id := email.thread_id
            sender_email := email.sender_email
            sender_name := email.sender_name
            subject := email.subject
            is_whitelisted := isW
            importance_score := pythonRound2 analysis.score
            importance_reason := analysis.reason
            detected_deadline := analysis.deadline_date
            deadline_text := analysis.deadline_text
            arrival := st.records.length }
        match routeScore cfg analysis.score with
        | .notify =>
            let logId := st.nextLogId
            let lg : NotificationLogRec :=
              { id := logId
                notification_type := "pushover"
                title := ("Important: " ++
                  (email.sender_name.getD email.sender_email)).take 255
                message := ("Subject: " ++ email.subject ++ "\nReason: " ++
                  analysis.reason).take 1000
                priority := if analysis.score ≥ 8/10 then 1 else 0
                status := if send.success then "sent" else "failed"
                error_message := send.error }
            let processed :=
              if send.success then
                { processed with
                  notification_sent := true
                  notification_sent_at := some now }
              else processed
            let processed := { processed with notifications := [logId] }
            { state :=
                { st with
                  records := st.records ++ [processed]
                  logs := st.logs ++ [lg]
                  nextLogId := logId + 1 }
              record := some processed
              counts := { classifier_calls := 1, dispatch_calls := 1 } }
        | .digest =>
            let processed := { processed with digest_eligible := true }
            { state := { st with records := st.records ++ [processed] }
              record := some processed
              counts := { classifier_calls := 1 } }
        | .ignore =>
            { state := { st with records := st.records ++ [processed] }
              record := some processed
              counts := { classifier_calls := 1 } }

/-- `EmailProcessor._is_already_processed`: existence check on
`(gmail_account_id, message_id)`. -/
def isAlreadyProcessed (records : List ProcessedEmailRec) (accountId : ℕ)
    (messageId : String) : Bool :=
  records.any fun r => r.gmail_account_id == accountId && r.message_id == messageId

/-- The per-email body of `EmailProcessor.process_account`'s loop
(lines 183-197): the dedup gate runs first and skips the message entirely
(no classifier call, no exception) when a record for
`(account, message_id)` already exists. -/
def processEmailStep (cfg : ProcessorConfig) (st : DbState) (accountId : ℕ)
    (email : EmailMessage) (oracle : OracleResponse) (send : SendResult)
    (now : ℕ) : StepOutcome :=
  if isAlreadyProcessed st.records accountId email.message_id then
    { state := st, record := none, counts := {} }
  else
    processSingleEmail cfg st accountId email oracle send now

/-! ## Digest aggregator (`app/services/digest_service.py`) -/

/-- The filter of `DigestService.get_pending_digest_emails`:
`digest_eligible AND NOT digest_sent`. -/
def pendingFilter (r : ProcessedEmailRec) : Bool :=
  r.digest_eligible && !r.digest_sent

/-- Insert a record into a descending-by-score list, before the first element
it does not strictly trail -- the stable placement of
`ORDER BY importance_score DESC` for a row arriving earlier than the rest. -/
def insertByScoreDesc (r : ProcessedEmailRec) :
    List ProcessedEmailRec → List ProcessedEmailRec
  | [] => [r]
  | x :: xs =>
      if x.importance_score ≤ r.importance_score then r :: x :: xs
      else x :: insertByScoreDesc r xs

/-- Stable descending sort by `importance_score`, modelling
`ORDER BY importance_score DESC` over rows in rowid (arrival) order. -/
def sortByScoreDesc : List ProcessedEmailRec → List ProcessedEmailRec
  | [] => []
  | x :: xs => insertByScoreDesc x (sortByScoreDesc xs)

/-- `DigestService.get_pending_digest_emails`: all eligible, unsent records,
ordered by score descending (ties in arrival order). -/
def get_pending_digest_emails (st : DbState) : List ProcessedEmailRec :=
  sortByScoreDesc (st.records.filter pendingFilter)

/-- Python `f"{score:.0%}"` on an exact value. -/
def formatPercent (q : ℚ) : String :=
  toString (roundHalfEven (q * 100)) ++ "%"

/-- One numbered entry of the digest body (`build_digest_message` loop):
truncated sender and subject, percentage score, optional deadline line. -/
def digestLine (i : ℕ) (r : ProcessedEmailRec) : String :=
  let sender := r.sender_name.getD r.sender_email
  let senderShort := if sender.length > 25 then sender.take 25 ++ "..." else sender
  let subjectShort :=
    if r.subject.length > 40 then r.subject.take 40 ++ "..." else r.subject.take 40
  let line := toString i ++ ". <b>" ++ senderShort ++ "</b>\n   " ++ subjectShort ++
    "\n   Score: " ++ formatPercent r.importance_score
  match r.deadline_text with
  | some t => line ++ "\n   Deadline: " ++ t
  | none => line

/-- `DigestService.build_digest_message`: `none` for an empty list, otherwise
a header, up to 10 numbered entries, and an overflow line past 10. -/
def build_digest_message (emails : List ProcessedEmailRec) : Option String :=
  if emails = [] then none
  else
    let header := "<b>" ++ toString emails.length ++ " notable emails</b>\n"
    let entries := (emails.take 10).enum.map fun p => digestLine (p.1 + 1) p.2
    let lines :=
      if emails.length > 10 then
        header :: entries ++ ["\n...and " ++ toString (emails.length - 10) ++ " more"]
      else header :: entries
    some (String.intercalate "\n\n" lines)

/-- The dict returned by `DigestService.send_digest`. -/
structure DigestResult where
  success : Bool
  emails_included : ℕ
  error : Option String := none
deriving DecidableEq, Repr

/-- `DigestService.send_digest` (lines 79-150): no-op success when nothing is
pending; otherwise build the message, always persist one `notification_log`
row reflecting the transport outcome, and on success mark every selected
record (not just the 10 rendered) `digest_sent` at the current time, linking
it to that log row. -/
def send_digest (st : DbState) (send : SendResult) (now : ℕ) :
    DbState × DigestResult :=
  let emails := get_pending_digest_emails st
  if emails = [] then
    (st, { success := true, emails_included := 0 })
  else
    match build_digest_message emails with
    | none => (st, { success := true, emails_included := 0 })
    | some message =>
        let logId := st.nextLogId
        let lg : NotificationLogRec :=
          { id := logId
            notification_type := "digest"
            title := "Email Digest (" ++ toString emails.length ++ " emails)"
            message := message.take 1000
            priority := -1
            status := if send.success then "sent" else "failed"
            error_message := send.error }
        if send.success then
          let records := st.records.map fun r =>
            if pendingFilter r then
              { r with
                digest_sent := true
                digest_sent_at := some now
                notifications := r.notifications ++ [logId] }
            else r
          ({ st with
              records := records
              logs := st.logs ++ [lg]
              nextLogId := logId + 1 },
            { success := true, emails_included := emails.length })
        else
          ({ st with logs := st.logs ++ [lg], nextLogId := logId + 1 },
            { success := false, emails_included := 0, error := send.error })

/-! ## Feedback submission (`app/routes/api.py`, `submit_feedback`) -/

/-- A `user_feedback` row. -/
structure UserFeedbackRec where
  processed_email_id : ℕ
  feedback_type : String
  original_score : ℚ
deriving DecidableEq, Repr

/-- The state touched by the feedback endpoint. -/
structure FeedbackState where
  patterns : List LearnedPattern
  feedback : List UserFeedbackRec
deriving Repr

/-- HTTP-level outcome of `submit_feedback`. -/
inductive FeedbackResponse
  | invalidType
  | notFound
  | ok (senderAdjustment : ℚ)
  | serverError
deriving DecidableEq, Repr

/-- `submit_feedback` (src/app/routes/api.py, lines 262-330): validate the
feedback type, look up the record (`emailRec` is the queried row's score and
sender, `none` when absent), then in one transaction add the feedback row,
update the sender pattern with the full delta (−0.15 / +0.10) and the domain
pattern with half of it when the address contains `'@'`; `errorOccurs` models
an exception anywhere inside the `try` block, whose handler rolls the whole
transaction back. -/
def submit_feedback (st : FeedbackState) (emailId : ℕ)
    (emailRec : Option (ℚ × String)) (feedback_type : String)
    (errorOccurs : Bool) : FeedbackState × FeedbackResponse :=
  if feedback_type ≠ "not_important" ∧ feedback_type ≠ "important" then
    (st, .invalidType)
  else
    match emailRec with
    | none => (st, .notFound)
    | some (originalScore, senderEmail) =>
        if errorOccurs then (st, .serverError)
        else
          let fb : UserFeedbackRec :=
            { processed_email_id := emailId
              feedback_type := feedback_type
              original_score := originalScore }
          let adjustment : ℚ :=
            if feedback_type = "not_important" then -(15/100) else 10/100
          let (patterns1, senderPattern) :=
            record_feedback st.patterns "sender" senderEmail adjustment
          let patterns2 :=
            if senderEmail.contains '@' then
              (record_feedback patterns1 "domain"
                ((senderEmail.splitOn "@").getLastD "") (adjustment * (1/2))).1
            else patterns1
          ({ patterns := patterns2, feedback := st.feedback ++ [fb] },
            .ok senderPattern.score_adjustment)

/-! ## Spec-side definitions and concrete inputs -/

/-- The query that `record_feedback` runs to locate an existing pattern:
first row matching `(pattern_type, pattern_value.lower().strip())`. -/
def find_feedback_pattern (ps : List LearnedPattern) (patternType patternValue : String) :
    Option LearnedPattern :=
  ps.find? fun p => p.patternType == patternType && p.patternValue == patternValue.toLower.trim

/-- The §4.3 scoring formula as the spec words it, for comparison with the
code: `score = oracle.score`; if allowed, `score = min(1.0, score+0.15)`;
then `score = clamp(score + totalAdjustment, 0.0, 1.0)`. -/
def spec_finalScore (isAllowed : Bool) (adjustment base : ℚ) : ℚ :=
  let boosted := if isAllowed then min 1 (base + 15/100) else base
  max 0 (min 1 (boosted + adjustment))

/-- A default record, used only to name computed records in closed
statements via `Option.getD`. -/
def emptyRec : ProcessedEmailRec :=
  { gmail_account_id := 0, message_id := "", thread_id := "", sender_email := ""
    sender_name := none, subject := "", is_whitelisted := false
    importance_score := 0, importance_reason := "", arrival := 0 }

/-- Empty database state. -/
def emptyState : DbState :=
  { blacklist := [], whitelist := [], patterns := [], records := [], logs := [] }

/-- A generic inbound message used by concrete scenarios. -/
def msgA : EmailMessage :=
  { message_id := "m1", thread_id := "t1", sender_email := "alice@example.com"
    sender_name := some "Alice", subject := "Quarterly report", body_text := "body" }

/-- An oracle reply whose raw score 1.5 escapes `[0,1]`. -/
def oracleOutOfRange : RawOracleResult :=
  { score := some (3/2), reason := some "urgent", category := some "urgent"
    suggested_action := some "act", deadline := none }

/-- A well-behaved oracle reply with score 0.6. -/
def oracleSix : RawOracleResult :=
  { score := some (6/10), reason := some "work email", category := some "important"
    suggested_action := some "reply", deadline := none }

/-- An oracle reply carrying an unparsable deadline date. -/
def oracleBadDeadline : RawOracleResult :=
  { score := some (6/10), reason := some "deadline soon", category := some "important"
    suggested_action := some "reply"
    deadline := some { text := some "due soonish", date := some "not-a-date" } }

/-- An oracle reply with raw score 0.695, just under the notify threshold. -/
def oracleNearThreshold : RawOracleResult :=
  { score := some (695/1000), reason := some "borderline", category := some "important"
    suggested_action := some "review", deadline := none }

/-- State whose deny list blocks `evil.com` and whose allow list also
matches that very domain. -/
def denyAndAllowState : DbState :=
  { emptyState with
    blacklist := [{ kind := .domain, value := "evil.com", isActive := true }]
    whitelist := [{ kind := .domain, value := "evil.com", isActive := true }] }

/-- A message from the denied (and simultaneously allowed) domain. -/
def msgDenied : EmailMessage :=
  { message_id := "m2", thread_id := "t2", sender_email := "Foo@Evil.com"
    sender_name := none, subject := "spam", body_text := "buy now" }

/-- State whose allow list trusts `corp.com`. -/
def allowCorpState : DbState :=
  { emptyState with
    whitelist := [{ kind := .domain, value := "corp.com", isActive := true }] }

/-- A message from the allow-listed domain. -/
def msgBoss : EmailMessage :=
  { message_id := "m3", thread_id := "t3", sender_email := "boss@corp.com"
    sender_name := some "Boss", subject := "Please review", body_text := "asap" }

/-- A successful transport outcome. -/
def sendOk : SendResult := { success := true }

/-- A failed transport outcome. -/
def sendFail : SendResult := { success := false, error := some "timeout" }

/-- State with two digest-pending records (scores 0.55 and 0.68), one
already-sent record and one ineligible record. -/
def digestState : DbState :=
  { emptyState with
    records :=
      [ { emptyRec with
            message_id := "d1", sender_email := "a@x.com",
            importance_score := 55/100, digest_eligible := true, arrival := 0 }
      , { emptyRec with
            message_id := "d2", sender_email := "b@x.com",
            importance_score := 68/100, digest_eligible := true, arrival := 1 }
      , { emptyRec with
            message_id := "d3", sender_email := "c@x.com",
            importance_score := 60/100, digest_eligible := true, digest_sent := true,
            arrival := 2 }
      , { emptyRec with
            message_id := "d4", sender_email := "d@x.com",
            importance_score := 90/100, arrival := 3 } ]
    nextLogId := 7 }

/-! ## Helper lemmas -/

theorem roundHalfEven_le {q : ℚ} {m : ℤ} (h : q ≤ (m : ℚ)) : roundHalfEven q ≤ m := by
  have hfl : ⌊q⌋ ≤ m := by
    have h2 := Int.floor_le_floor h
    simpa using h2
  have key : ¬(q - (⌊q⌋ : ℚ) < 1/2) → ⌊q⌋ + 1 ≤ m := by
    intro h1
    have hhalf : (1/2 : ℚ) ≤ q - (⌊q⌋ : ℚ) := not_lt.mp h1
    rcases lt_or_eq_of_le hfl with hlt | heq
    · omega
    · exfalso
      have hmq : (m : ℚ) < q := by
        rw [← heq]
        linarith
      linarith
  unfold roundHalfEven
  split_ifs with h1 h2 h3
  · exact hfl
  · exact key h1
  · exact hfl
  · exact key h1

theorem le_roundHalfEven {q : ℚ} {m : ℤ} (h : (m : ℚ) ≤ q) : m ≤ roundHalfEven q := by
  have hfl : m ≤ ⌊q⌋ := Int.le_floor.mpr h
  unfold roundHalfEven
  split_ifs <;> omega

theorem pythonRound2_nonneg {q : ℚ} (h : 0 ≤ q) : 0 ≤ pythonRound2 q := by
  unfold pythonRound2
  have hr : (0 : ℤ) ≤ roundHalfEven (q * 100) := le_roundHalfEven (by push_cast; linarith)
  exact div_nonneg (by exact_mod_cast hr) (by norm_num)

theorem pythonRound2_le_one {q : ℚ} (h : q ≤ 1) : pythonRound2 q ≤ 1 := by
  unfold pythonRound2
  have hr : roundHalfEven (q * 100) ≤ (100 : ℤ) := roundHalfEven_le (by push_cast; linarith)
  have hq : (roundHalfEven (q * 100) : ℚ) ≤ 100 := by exact_mod_cast hr
  linarith

theorem clamp01_bounds (x : ℚ) : 0 ≤ max 0 (min 1 x) ∧ max 0 (min 1 x) ≤ 1 :=
  ⟨le_max_left 0 _, max_le (by norm_num) (min_le_left 1 x)⟩

/-- Any record returned by `processSingleEmail` carries the score of a
successful classification, rounded to two decimals. -/
theorem processSingleEmail_record_score
    (cfg : ProcessorConfig) (st : DbState) (accountId : ℕ) (email : EmailMessage)
    (oracle : OracleResponse) (send : SendResult) (now : ℕ)
    (rec : ProcessedEmailRec)
    (hrec : (processSingleEmail cfg st accountId email oracle send now).record = some rec) :
    ∃ a, analyze_email st.patterns true email.sender_email
        (is_whitelisted st.whitelist email.sender_email) oracle = .ok a ∧
      rec.importance_score = pythonRound2 a.score := by
  unfold processSingleEmail at hrec
  cases hb : is_blacklisted st.blacklist email.sender_email with
  | true => simp [hb] at hrec
  | false =>
    simp only [hb, Bool.false_eq_true, if_false] at hrec
    cases hana : analyze_email st.patterns true email.sender_email
        (is_whitelisted st.whitelist email.sender_email) oracle with
    | error e => simp [hana] at hrec
    | ok a =>
      simp only [hana] at hrec
      refine ⟨a, rfl, ?_⟩
      cases hroute : routeScore cfg a.score with
      | notify =>
        simp only [hroute] at hrec
        by_cases hsend : send.success = true <;>
          simp only [hsend, Bool.false_eq_true, if_true, if_false,
            Option.some.injEq] at hrec <;> subst hrec <;> rfl
      | digest =>
        simp only [hroute, Option.some.injEq] at hrec
        subst hrec
        rfl
      | ignore =>
        simp only [hroute, Option.some.injEq] at hrec
        subst hrec
        rfl

/-- Score bounds for any successful classification whose oracle report lies
in `[0,1]` whenever present. -/
theorem analyze_email_score_bounds (ps : List LearnedPattern) (hasDb : Bool)
    (sender : String) (isW : Bool) (oracle : OracleResponse) (a : ImportanceAnalysis)
    (hOracle : ∀ r s, oracle = .parsed r → r.score = some s → 0 ≤ s ∧ s ≤ 1)
    (hok : analyze_email ps hasDb sender isW oracle = .ok a) :
    0 ≤ a.score ∧ a.score ≤ 1 := by
  cases oracle with
  | apiError => simp [analyze_email] at hok
  | malformed =>
      simp only [analyze_email, Except.ok.injEq] at hok
      subst hok
      by_cases hw : isW <;> simp [hw] <;> norm_num
  | parsed r =>
      have hbase : 0 ≤ r.score.getD (1/2) ∧ r.score.getD (1/2) ≤ 1 := by
        cases hs : r.score with
        | none => norm_num
        | some s => simpa using hOracle r s rfl hs
      simp only [analyze_email, Except.ok.injEq] at hok
      subst hok
      obtain ⟨hb0, hb1⟩ := hbase
      dsimp only
      split_ifs
      all_goals constructor
      all_goals first
        | exact le_sup_left
        | exact sup_le (by norm_num) inf_le_left
        | exact le_inf (by norm_num) (by linarith)
        | exact inf_le_left
        | exact hb0
        | exact hb1

/-! ## Claim theorems -/

/-- **C2.** For every score `s`: the route is Notify iff
`s ≥ notifyThreshold`; otherwise Digest iff digest is enabled and
`low ≤ s ≤ high` (both bounds inclusive); otherwise Ignore.  A score exactly
at the notify threshold routes Notify; a score exactly at the digest low or
high bound (with digest enabled and the band below the notify threshold)
routes Digest; and when `high ≥ notifyThreshold` the Notify branch still
wins for every `s ≥ notifyThreshold`. -/
theorem C2_routing_decision (cfg : ProcessorConfig) (s : ℚ) :
    (routeScore cfg s = .notify ↔ cfg.importance_threshold ≤ s) ∧
    (¬ cfg.importance_threshold ≤ s →
      (routeScore cfg s = .digest ↔
        cfg.digest_enabled = true ∧ cfg.digest_threshold_low ≤ s ∧
          s ≤ cfg.digest_threshold_high)) ∧
    (¬ cfg.importance_threshold ≤ s →
      ¬(cfg.digest_enabled = true ∧ cfg.digest_threshold_low ≤ s ∧
          s ≤ cfg.digest_threshold_high) →
      routeScore cfg s = .ignore) ∧
    routeScore cfg cfg.importance_threshold = .notify ∧
    (cfg.digest_enabled = true → cfg.digest_threshold_low < cfg.importance_threshold →
      cfg.digest_threshold_low ≤ cfg.digest_threshold_high →
      routeScore cfg cfg.digest_threshold_low = .digest) ∧
    (cfg.digest_enabled = true → cfg.digest_threshold_high < cfg.importance_threshold →
      cfg.digest_threshold_low ≤ cfg.digest_threshold_high →
      routeScore cfg cfg.digest_threshold_high = .digest) ∧
    (cfg.importance_threshold ≤ cfg.digest_threshold_high →
      cfg.importance_threshold ≤ s → routeScore cfg s = .notify) := by
  unfold routeScore
  refine ⟨?_, ?_, ?_, ?_, ?_, ?_, ?_⟩
  · split_ifs with h1 h2 <;> simp_all [ge_iff_le]
  · intro hs
    split_ifs with h1 h2 <;> simp_all [ge_iff_le]
  · intro hs hd
    split_ifs with h1 h2 <;> simp_all [ge_iff_le]
  · split_ifs with h1 <;> simp_all [ge_iff_le]
  · intro hd hlow hband
    split_ifs with h1 h2 <;> simp_all [ge_iff_le] <;> linarith
  · intro hd hhigh hband
    split_ifs with h1 h2 <;> simp_all [ge_iff_le] <;> linarith
  · intro _ hs
    split_ifs with h1 <;> simp_all [ge_iff_le]

/-- On a parsed oracle result carrying an in-range score, the adapter's final
score equals the spec's §4.3 formula (boost, then clamp of score plus total
adjustment). -/
theorem analyze_email_parsed_score (ps : List LearnedPattern) (sender : String)
    (isW : Bool) (r : RawOracleResult) (s : ℚ) (a : ImportanceAnalysis)
    (hscore : r.score = some s) (h0 : 0 ≤ s) (h1 : s ≤ 1)
    (ha : analyze_email ps true sender isW (.parsed r) = .ok a) :
    a.score = spec_finalScore isW (get_total_adjustment ps sender) s := by
  simp only [analyze_email, Except.ok.injEq] at ha
  subst ha
  dsimp only
  rw [hscore]
  simp only [Option.getD_some]
  unfold spec_finalScore
  have hs1 : 0 ≤ (if isW = true then min 1 (s + 15/100) else s) ∧
      (if isW = true then min 1 (s + 15/100) else s) ≤ 1 := by
    split_ifs
    · exact ⟨le_inf (by norm_num) (by linarith), inf_le_left⟩
    · exact ⟨h0, h1⟩
  by_cases hz : get_total_adjustment ps sender = 0
  · simp only [if_true, hz, ne_eq, not_true_eq_false, and_false, if_false, add_zero]
    rw [inf_eq_right.mpr hs1.2, sup_eq_right.mpr hs1.1]
  · simp [hz]

/-- Witness for C2 at the default thresholds 0.5/0.69/0.7. -/
theorem C2_routing_decision_witness :
    routeScore {} (7/10) = .notify ∧ routeScore {} (69/100) = .digest ∧
      routeScore {} (499/1000) = .ignore := by
  refine ⟨(C2_routing_decision {} (7/10)).1.mpr (by with_unfolding_all decide), ?_, ?_⟩
  · exact ((C2_routing_decision {} (69/100)).2.1 (by with_unfolding_all decide)).mpr
      (by with_unfolding_all decide)
  · exact (C2_routing_decision {} (499/1000)).2.2.1 (by with_unfolding_all decide)
      (by with_unfolding_all decide)

/-- **C8.** Classification never propagates an oracle output-parsing
failure: on malformed output it returns exactly score 0.5 (0.65 when the
sender is allow-listed), category "normal" and a reason flagging manual
review; an unparsable deadline date is treated as no deadline without
failing the classification; an oracle transport/API failure is raised to
the caller rather than recovered. -/
theorem C8_oracle_failure_handling (ps : List LearnedPattern) (hasDb : Bool)
    (sender : String) (isW : Bool) :
    analyze_email ps hasDb sender isW .malformed = .ok
      { score := if isW then 65/100 else 1/2
        reason := "Analysis parsing failed - manual review recommended"
        category := "normal"
        suggested_action := "Manual review recommended" } ∧
    (∀ r dl ds, r.deadline = some dl → dl.date = some ds → parseISODate ds = none →
      (analyze_email ps hasDb sender isW (.parsed r)).map
          ImportanceAnalysis.deadline_date = .ok none ∧
      (analyze_email ps hasDb sender isW (.parsed r)).map
          ImportanceAnalysis.deadline_text = .ok dl.text) ∧
    analyze_email ps hasDb sender isW .apiError = .error () := by
  refine ⟨rfl, ?_, rfl⟩
  intro r dl ds hdl hds hparse
  constructor <;> simp only [analyze_email, hdl, hds, Except.map] <;>
    split_ifs <;> simp [hparse]

/-- Witness for C8: a concrete reply whose deadline date fails to parse. -/
theorem C8_oracle_failure_handling_witness :
    (analyze_email [] true "alice@example.com" false (.parsed oracleBadDeadline)).map
        ImportanceAnalysis.deadline_date = .ok none ∧
    (analyze_email [] true "alice@example.com" false (.parsed oracleBadDeadline)).map
        ImportanceAnalysis.deadline_text = .ok (some "due soonish") :=
  (C8_oracle_failure_handling [] true "alice@example.com" false).2.1 oracleBadDeadline
    { text := some "due soonish", date := some "not-a-date" } "not-a-date" rfl rfl
    (by with_unfolding_all decide)

/-- **C1 is refuted as stated**: with no learned adjustment the clamp is
skipped (`if learned_adjustment != 0`), so a raw oracle score of 1.5 is
persisted as 1.5, outside `[0.00, 1.00]`, on a record the pipeline processed
to completion. -/
theorem C1_persisted_range_counterexample :
    ((processSingleEmail {} emptyState 1 msgA (.parsed oracleOutOfRange) sendOk
        0).record.map ProcessedEmailRec.importance_score) = some (3/2) ∧
      ¬ ((3/2 : ℚ) ≤ 1) := by
  constructor
  · with_unfolding_all decide
  · norm_num

/-- **C1 (amended).** Provided every score the oracle reports lies in
`[0,1]` (its §6 contract), the importance score persisted on any completed
record lies in `[0.00, 1.00]`, regardless of the magnitude of the
accumulated feedback adjustment. -/
theorem C1_persisted_score_in_range
    (cfg : ProcessorConfig) (st : DbState) (accountId : ℕ) (email : EmailMessage)
    (oracle : OracleResponse) (send : SendResult) (now : ℕ)
    (hOracle : ∀ r s, oracle = .parsed r → r.score = some s → 0 ≤ s ∧ s ≤ 1)
    (rec : ProcessedEmailRec)
    (hrec : (processSingleEmail cfg st accountId email oracle send now).record = some rec) :
    0 ≤ rec.importance_score ∧ rec.importance_score ≤ 1 := by
  obtain ⟨a, ha, hs⟩ :=
    processSingleEmail_record_score cfg st accountId email oracle send now rec hrec
  obtain ⟨h0, h1⟩ := analyze_email_score_bounds _ _ _ _ _ _ hOracle ha
  rw [hs]
  exact ⟨pythonRound2_nonneg h0, pythonRound2_le_one h1⟩

/-- Witness for the amended C1 on a concrete in-range run. -/
theorem C1_persisted_score_in_range_witness :
    0 ≤ ((processSingleEmail {} allowCorpState 1 msgBoss (.parsed oracleSix) sendOk
        0).record.getD emptyRec).importance_score ∧
      ((processSingleEmail {} allowCorpState 1 msgBoss (.parsed oracleSix) sendOk
        0).record.getD emptyRec).importance_score ≤ 1 :=
  C1_persisted_score_in_range {} allowCorpState 1 msgBoss (.parsed oracleSix) sendOk 0
    (by
      intro r s hr hs
      injection hr with h
      subst h
      have h6 : oracleSix.score = some (6/10 : ℚ) := rfl
      rw [h6] at hs
      obtain rfl := (Option.some.inj hs).symm
      norm_num)
    _ (by with_unfolding_all decide)

/-- **C6.** On a parseable oracle result with in-range score `s`, the
persisted score is `round2(clamp(boost(s) + totalAdjustment, 0, 1))` where
the boost is `min(1, s+0.15)` exactly for allow-listed senders and
`totalAdjustment` is the sender-pattern plus domain-pattern adjustment
(0 when neither exists); concretely, an allow-listed sender with oracle
score 0.6 and no feedback adjustment persists 0.75, routes Notify at the
default 0.7 threshold, and the dispatch is logged as sent. -/
theorem C6_final_score_formula
    (cfg : ProcessorConfig) (st : DbState) (accountId : ℕ) (email : EmailMessage)
    (r : RawOracleResult) (s : ℚ) (send : SendResult) (now : ℕ)
    (hscore : r.score = some s) (h0 : 0 ≤ s) (h1 : s ≤ 1)
    (rec : ProcessedEmailRec)
    (hrec : (processSingleEmail cfg st accountId email (.parsed r) send
        now).record = some rec) :
    rec.importance_score =
      pythonRound2 (spec_finalScore (is_whitelisted st.whitelist email.sender_email)
        (get_total_adjustment st.patterns email.sender_email) s) ∧
    (get_adjustment st.patterns "sender" (normalizeAddr email.sender_email) = none →
      get_adjustment st.patterns "domain"
          (afterLastAt (normalizeAddr email.sender_email)) = none →
      get_total_adjustment st.patterns email.sender_email = 0) ∧
    ((processSingleEmail {} allowCorpState 1 msgBoss (.parsed oracleSix) sendOk
        0).record.map ProcessedEmailRec.importance_score = some (3/4) ∧
      (processSingleEmail {} allowCorpState 1 msgBoss (.parsed oracleSix) sendOk
        0).record.map ProcessedEmailRec.notification_sent = some true ∧
      (processSingleEmail {} allowCorpState 1 msgBoss (.parsed oracleSix) sendOk
        0).state.logs.map NotificationLogRec.status = ["sent"]) := by
  refine ⟨?_, ?_, ?_⟩
  · obtain ⟨a, ha, hsc⟩ :=
      processSingleEmail_record_score cfg st accountId email (.parsed r) send now rec hrec
    rw [hsc, analyze_email_parsed_score st.patterns email.sender_email _ r s a hscore h0 h1 ha]
  · intro hsender hdomain
    simp only [get_total_adjustment, hsender, hdomain]
    split_ifs <;> norm_num
  · constructor
    · with_unfolding_all decide
    · constructor <;> with_unfolding_all decide

/-- Witness for C6 on the concrete allow-listed 0.6 scenario. -/
theorem C6_final_score_formula_witness :
    ((processSingleEmail {} allowCorpState 1 msgBoss (.parsed oracleSix) sendOk
        0).record.getD emptyRec).importance_score =
      pythonRound2 (spec_finalScore (is_whitelisted allowCorpState.whitelist
          msgBoss.sender_email)
        (get_total_adjustment allowCorpState.patterns msgBoss.sender_email) (6/10)) :=
  (C6_final_score_formula {} allowCorpState 1 msgBoss oracleSix (6/10) sendOk 0 rfl
    (by norm_num) (by norm_num) _ (by with_unfolding_all decide)).1

/-- **C4.** A deny-list match is an exact active email-kind entry on the
lowercased, trimmed address or an active domain-kind entry on the substring
after its last `'@'`; for any matching message the pipeline short-circuits
before classification -- same state, no record, zero classifier and dispatch
calls -- and this holds even when the sender also matches an allow-list
entry, because the deny check is evaluated strictly first. -/
theorem C4_deny_short_circuit (entries : List ListEntry) (em : String)
    (cfg : ProcessorConfig) (st : DbState) (accountId : ℕ) (email : EmailMessage)
    (oracle : OracleResponse) (send : SendResult) (now : ℕ) :
    (is_blacklisted entries em = true ↔
      (∃ x ∈ entries, x.kind = .email ∧ x.value = normalizeAddr em ∧
          x.isActive = true) ∨
        (afterLastAt (normalizeAddr em) ≠ "" ∧
          ∃ x ∈ entries, x.kind = .domain ∧
            x.value = afterLastAt (normalizeAddr em) ∧ x.isActive = true)) ∧
    (is_blacklisted st.blacklist email.sender_email = true →
      processSingleEmail cfg st accountId email oracle send now =
        { state := st, record := none, counts := {} }) ∧
    (is_blacklisted st.blacklist email.sender_email = true →
      is_whitelisted st.whitelist email.sender_email = true →
      processSingleEmail cfg st accountId email oracle send now =
        { state := st, record := none, counts := {} }) := by
  refine ⟨?_, fun hb => ?_, fun hb _ => ?_⟩
  · constructor
    · intro h
      simp only [is_blacklisted] at h
      split_ifs at h with h1 h2
      · left
        obtain ⟨x, hx, hp⟩ := List.any_eq_true.mp h1
        simp only [Bool.and_eq_true, beq_iff_eq] at hp
        exact ⟨x, hx, hp.1.1, hp.1.2, hp.2⟩
      · right
        obtain ⟨x, hx, hp⟩ := List.any_eq_true.mp h
        simp only [Bool.and_eq_true, beq_iff_eq] at hp
        exact ⟨by simpa using h2, x, hx, hp.1.1, hp.1.2, hp.2⟩
    · intro h
      simp only [is_blacklisted]
      split_ifs with h1 h2
      · rfl
      · rcases h with ⟨x, hx, hk, hv, ha⟩ | ⟨hd, x, hx, hk, hv, ha⟩
        · exact absurd (List.any_eq_true.mpr ⟨x, hx, by simp [hk, hv, ha]⟩) h1
        · exact List.any_eq_true.mpr ⟨x, hx, by simp [hk, hv, ha]⟩
      · rcases h with ⟨x, hx, hk, hv, ha⟩ | ⟨hd, _⟩
        · exact absurd (List.any_eq_true.mpr ⟨x, hx, by simp [hk, hv, ha]⟩) h1
        · exact absurd hd (by simpa using h2)
  · simp [processSingleEmail, hb]
  · simp [processSingleEmail, hb]

/-- Witness for C4: a denied domain that is simultaneously allow-listed is
still suppressed before classification. -/
theorem C4_deny_short_circuit_witness :
    processSingleEmail {} denyAndAllowState 1 msgDenied .malformed sendOk 0 =
      { state := denyAndAllowState, record := none, counts := {} } ∧
    is_whitelisted denyAndAllowState.whitelist msgDenied.sender_email = true :=
  ⟨(C4_deny_short_circuit [] "" {} denyAndAllowState 1 msgDenied .malformed sendOk 0).2.2
      (by with_unfolding_all decide) (by with_unfolding_all decide),
    by with_unfolding_all decide⟩

/-- **C10.** The route is decided on the unrounded classification score
while the persisted record stores the score rounded to two decimals: a raw
score of 0.695 at notify threshold 0.7 is not Notify-routed (no dispatch,
`notification_sent = false`), yet the record persists 0.70, which meets the
threshold -- the stored score does not determine the route at the boundary. -/
theorem C10_rounded_score_vs_route :
    (processSingleEmail {} emptyState 1 msgA (.parsed oracleNearThreshold) sendOk
        0).record.map ProcessedEmailRec.importance_score = some (7/10) ∧
    routeScore {} (695/1000) ≠ .notify ∧
    (processSingleEmail {} emptyState 1 msgA (.parsed oracleNearThreshold) sendOk
        0).record.map ProcessedEmailRec.notification_sent = some false ∧
    (processSingleEmail {} emptyState 1 msgA (.parsed oracleNearThreshold) sendOk
        0).counts.dispatch_calls = 0 ∧
    ({} : ProcessorConfig).importance_threshold ≤ 7/10 := by
  refine ⟨?_, ?_, ?_, ?_, ?_⟩ <;> with_unfolding_all decide

/-- **C5.** The dedup gate runs before any classification: a message whose
`(account, message-id)` key already has a record is skipped with zero
classifier and zero dispatch calls and an unchanged state; re-submitting a
message right after a completed (non-raising) run is such a no-op; and any
step preserves uniqueness of the `(account, message-id)` key, so at most
one record ever exists per key. -/
theorem C5_dedup_idempotent (cfg : ProcessorConfig) (st : DbState) (accountId : ℕ)
    (email : EmailMessage) (oracle oracle2 : OracleResponse)
    (send send2 : SendResult) (now now2 : ℕ) :
    (isAlreadyProcessed st.records accountId email.message_id = true →
      processEmailStep cfg st accountId email oracle send now =
        { state := st, record := none, counts := {} }) ∧
    ((processEmailStep cfg st accountId email oracle send now).failed = false →
      processEmailStep cfg
          (processEmailStep cfg st accountId email oracle send now).state
          accountId email oracle2 send2 now2 =
        { state := (processEmailStep cfg st accountId email oracle send now).state,
          record := none, counts := {} }) ∧
    ((st.records.map fun r => (r.gmail_account_id, r.message_id)).Nodup →
      ((processEmailStep cfg st accountId email oracle send
          now).state.records.map fun r => (r.gmail_account_id, r.message_id)).Nodup) := by
  refine ⟨fun hdup => by simp [processEmailStep, hdup], ?_, ?_⟩
  · intro hfail
    by_cases hdup : isAlreadyProcessed st.records accountId email.message_id = true
    · simp [processEmailStep, hdup]
    · have hdup' : isAlreadyProcessed st.records accountId email.message_id = false := by
        simpa using hdup
      simp only [processEmailStep, hdup', Bool.false_eq_true, if_false] at hfail ⊢
      cases hb : is_blacklisted st.blacklist email.sender_email with
      | true => simp [processEmailStep, processSingleEmail, hb, hdup']
      | false =>
        cases hana : analyze_email st.patterns true email.sender_email
            (is_whitelisted st.whitelist email.sender_email) oracle with
        | error e => simp [processSingleEmail, hb, hana] at hfail
        | ok a =>
          cases hroute : routeScore cfg a.score with
          | notify =>
            by_cases hsend : send.success = true <;>
              simp [processEmailStep, processSingleEmail, isAlreadyProcessed,
                List.any_append, hb, hana, hroute, hsend]
          | digest =>
            simp [processEmailStep, processSingleEmail, isAlreadyProcessed,
              List.any_append, hb, hana, hroute]
          | ignore =>
            simp [processEmailStep, processSingleEmail, isAlreadyProcessed,
              List.any_append, hb, hana, hroute]
  · intro hnd
    by_cases hdup : isAlreadyProcessed st.records accountId email.message_id = true
    · simpa [processEmailStep, hdup] using hnd
    · have hdup' : isAlreadyProcessed st.records accountId email.message_id = false := by
        simpa using hdup
      have hnotmem : (accountId, email.message_id) ∉
          st.records.map fun r => (r.gmail_account_id, r.message_id) := by
        intro hmem
        simp only [List.mem_map] at hmem
        obtain ⟨r, hr, hk⟩ := hmem
        simp only [isAlreadyProcessed, List.any_eq_true, Bool.and_eq_true,
          beq_iff_eq] at hdup'
        have hk1 : r.gmail_account_id = accountId := congrArg Prod.fst hk
        have hk2 : r.message_id = email.message_id := congrArg Prod.snd hk
        simp at hdup'
        exact hdup' r hr hk1 hk2
      simp only [processEmailStep, hdup', Bool.false_eq_true, if_false]
      cases hb : is_blacklisted st.blacklist email.sender_email with
      | true => simpa [processSingleEmail, hb] using hnd
      | false =>
        cases hana : analyze_email st.patterns true email.sender_email
            (is_whitelisted st.whitelist email.sender_email) oracle with
        | error e => simpa [processSingleEmail, hb, hana] using hnd
        | ok a =>
          cases hroute : routeScore cfg a.score with
          | notify =>
            by_cases hsend : send.success = true <;>
              simp [processSingleEmail, hb, hana, hroute, hsend, List.nodup_append,
                hnd, hnotmem]
          | digest =>
            simp [processSingleEmail, hb, hana, hroute, List.nodup_append, hnd,
              hnotmem]
          | ignore =>
            simp [processSingleEmail, hb, hana, hroute, List.nodup_append, hnd,
              hnotmem]

/-- Witness for C5: a second submission of the same message right after a
completed run is skipped with an unchanged state and no calls. -/
theorem C5_dedup_idempotent_witness :
    processEmailStep {}
        (processEmailStep {} emptyState 1 msgA (.parsed oracleSix) sendOk 0).state
        1 msgA .apiError sendFail 1 =
      { state := (processEmailStep {} emptyState 1 msgA (.parsed oracleSix) sendOk
          0).state,
        record := none, counts := {} } :=
  (C5_dedup_idempotent {} emptyState 1 msgA (.parsed oracleSix) .apiError sendOk
    sendFail 0 1).2.1 (by with_unfolding_all decide)

/-- **C9.** Feedback applies delta −0.15 (`not_important`) or +0.10
(`important`) to the sender pattern and exactly half that delta to the
derived domain pattern when the address contains `'@'`, and the two pattern
updates land in the same committed state as the feedback event row; on any
error inside the operation everything is rolled back and nothing changes. -/
theorem C9_feedback_atomic (st : FeedbackState) (emailId : ℕ) (origScore : ℚ)
    (sender : String) :
    (submit_feedback st emailId (some (origScore, sender)) "not_important" true =
      (st, .serverError)) ∧
    (submit_feedback st emailId (some (origScore, sender)) "important" true =
      (st, .serverError)) ∧
    (submit_feedback st emailId (some (origScore, sender)) "not_important" false =
      ({ patterns :=
            if sender.contains '@' then
              (record_feedback (record_feedback st.patterns "sender" sender
                  (-(15/100))).1
                "domain" ((sender.splitOn "@").getLastD "") (-(75/1000))).1
            else (record_feedback st.patterns "sender" sender (-(15/100))).1,
          feedback := st.feedback ++
            [{ processed_email_id := emailId, feedback_type := "not_important",
               original_score := origScore }] },
        .ok (record_feedback st.patterns "sender" sender
          (-(15/100))).2.score_adjustment)) ∧
    (submit_feedback st emailId (some (origScore, sender)) "important" false =
      ({ patterns :=
            if sender.contains '@' then
              (record_feedback (record_feedback st.patterns "sender" sender
                  (10/100)).1
                "domain" ((sender.splitOn "@").getLastD "") (5/100)).1
            else (record_feedback st.patterns "sender" sender (10/100)).1,
          feedback := st.feedback ++
            [{ processed_email_id := emailId, feedback_type := "important",
               original_score := origScore }] },
        .ok (record_feedback st.patterns "sender" sender
          (10/100)).2.score_adjustment)) := by
  have harith1 : (-(15/100) : ℚ) * (1/2) = -(75/1000) := by norm_num
  have harith2 : ((10/100) : ℚ) * (1/2) = 5/100 := by norm_num
  refine ⟨?_, ?_, ?_, ?_⟩ <;> simp [submit_feedback, harith1, harith2] <;> norm_num

/-- Witness for C9 on a concrete sender with a domain part. -/
theorem C9_feedback_atomic_witness :
    submit_feedback { patterns := [], feedback := [] } 3 (some (8/10, "x@y.com"))
        "not_important" false =
      ({ patterns :=
            if "x@y.com".contains '@' then
              (record_feedback (record_feedback [] "sender" "x@y.com" (-(15/100))).1
                "domain" (("x@y.com".splitOn "@").getLastD "") (-(75/1000))).1
            else (record_feedback [] "sender" "x@y.com" (-(15/100))).1,
          feedback :=
            [{ processed_email_id := 3, feedback_type := "not_important",
               original_score := 8/10 }] },
        .ok (record_feedback [] "sender" "x@y.com" (-(15/100))).2.score_adjustment) := by
  have h := (C9_feedback_atomic { patterns := [], feedback := [] } 3 (8/10)
    "x@y.com").2.2.1
  simpa using h

/-- `record_feedback` on a missing `(kind, value)` key appends a fresh
pattern with `count = 1` and `adjustment = delta`, and returns it. -/
theorem record_feedback_of_find_none (ps : List LearnedPattern) (t v : String)
    (a : ℚ) (h : find_feedback_pattern ps t v = none) :
    record_feedback ps t v a =
      (ps ++ [{ patternType := t, patternValue := v.toLower.trim,
                score_adjustment := a, feedback_count := 1 }],
        { patternType := t, patternValue := v.toLower.trim,
          score_adjustment := a, feedback_count := 1 }) := by
  induction ps with
  | nil => rfl
  | cons p rest ih =>
    cases hc : (p.patternType == t && p.patternValue == v.toLower.trim) with
    | true =>
      exfalso
      simp [find_feedback_pattern, List.find?_cons, hc] at h
    | false =>
      have h' : find_feedback_pattern rest t v = none := by
        simpa [find_feedback_pattern, List.find?_cons, hc] using h
      simp only [record_feedback, hc, Bool.false_eq_true, if_false]
      rw [ih h']
      rfl

/-- `record_feedback` on an existing key updates that pattern in place via
`update_pattern` and returns the updated row. -/
theorem record_feedback_of_find_some (ps : List LearnedPattern) (t v : String)
    (a : ℚ) (p : LearnedPattern) (h : find_feedback_pattern ps t v = some p) :
    (record_feedback ps t v a).2 = update_pattern p a ∧
    find_feedback_pattern (record_feedback ps t v a).1 t v =
      some (update_pattern p a) := by
  induction ps with
  | nil => simp [find_feedback_pattern] at h
  | cons q rest ih =>
    cases hc : (q.patternType == t && q.patternValue == v.toLower.trim) with
    | true =>
      have hp : q = p := by
        simpa [find_feedback_pattern, List.find?_cons, hc] using h
      subst hp
      have hc' : ((update_pattern q a).patternType == t &&
          (update_pattern q a).patternValue == v.toLower.trim) = true := hc
      constructor
      · simp [record_feedback, hc]
      · simp [record_feedback, hc, find_feedback_pattern, List.find?_cons, hc']
    | false =>
      have h' : find_feedback_pattern rest t v = some p := by
        simpa [find_feedback_pattern, List.find?_cons, hc] using h
      obtain ⟨ih1, ih2⟩ := ih h'
      constructor
      · simpa [record_feedback, hc] using ih1
      · simpa [find_feedback_pattern, record_feedback, hc, List.find?_cons]
          using ih2

/-- **C3.** `recordFeedback(kind, value, delta)`: with no existing pattern a
row is created with `adjustment = delta` and `count = 1`; otherwise the
count is incremented first and the adjustment becomes
`old*(1-weight) + delta*weight` with `weight = min(0.5, 1/(count+1))`
computed on the new count.  Consequently a second identical `not_important`
event uses weight 0.5 and leaves the adjustment stable at −0.15, a repeated
delta never moves the adjustment past the delta (the update stays between
the old adjustment and the delta), and the feedback count never decreases. -/
theorem C3_feedback_learning_rule (ps : List LearnedPattern) (t v : String) (a : ℚ) :
    (find_feedback_pattern ps t v = none →
      record_feedback ps t v a =
        (ps ++ [{ patternType := t, patternValue := v.toLower.trim,
                  score_adjustment := a, feedback_count := 1 }],
          { patternType := t, patternValue := v.toLower.trim,
            score_adjustment := a, feedback_count := 1 })) ∧
    (∀ p, find_feedback_pattern ps t v = some p →
      (record_feedback ps t v a).2 = update_pattern p a ∧
      (update_pattern p a).feedback_count = p.feedback_count + 1 ∧
      (update_pattern p a).score_adjustment =
        p.score_adjustment *
            (1 - min (1/2 : ℚ) (1 / ((p.feedback_count : ℚ) + 1))) +
          a * min (1/2 : ℚ) (1 / ((p.feedback_count : ℚ) + 1)) ∧
      min p.score_adjustment a ≤ (update_pattern p a).score_adjustment ∧
      (update_pattern p a).score_adjustment ≤ max p.score_adjustment a ∧
      p.feedback_count ≤ (update_pattern p a).feedback_count) ∧
    (record_feedback ((record_feedback [] "sender" "a@b.com" (-(15/100))).1)
        "sender" "a@b.com" (-(15/100)) =
      ([{ patternType := "sender", patternValue := "a@b.com",
          score_adjustment := -(15/100), feedback_count := 2 }],
        { patternType := "sender", patternValue := "a@b.com",
          score_adjustment := -(15/100), feedback_count := 2 })) := by
  refine ⟨record_feedback_of_find_none ps t v a, ?_, by with_unfolding_all decide⟩
  intro p hp
  have hden : (0 : ℚ) < ((p.feedback_count + 1 : ℕ) : ℚ) := by
    exact_mod_cast Nat.succ_pos p.feedback_count
  have hwpos : (0 : ℚ) < min (1/2) (1 / ((p.feedback_count + 1 : ℕ) : ℚ)) :=
    lt_min (by norm_num) (one_div_pos.mpr hden)
  have hwle : min (1/2 : ℚ) (1 / ((p.feedback_count + 1 : ℕ) : ℚ)) ≤ 1 :=
    le_trans (min_le_left _ _) (by norm_num)
  refine ⟨(record_feedback_of_find_some ps t v a p hp).1, rfl, ?_, ?_, ?_,
    Nat.le_succ _⟩
  · simp only [update_pattern]
    push_cast
    ring
  · simp only [update_pattern]
    set w : ℚ := min (1/2) (1 / ((p.feedback_count + 1 : ℕ) : ℚ)) with hw
    have h1 : min p.score_adjustment a * (1 - w) ≤ p.score_adjustment * (1 - w) :=
      mul_le_mul_of_nonneg_right (min_le_left _ _) (by linarith)
    have h2 : min p.score_adjustment a * w ≤ a * w :=
      mul_le_mul_of_nonneg_right (min_le_right _ _) (le_of_lt hwpos)
    have hsum : min p.score_adjustment a * (1 - w) + min p.score_adjustment a * w =
        min p.score_adjustment a := by ring
    linarith
  · simp only [update_pattern]
    set w : ℚ := min (1/2) (1 / ((p.feedback_count + 1 : ℕ) : ℚ)) with hw
    have h1 : p.score_adjustment * (1 - w) ≤ max p.score_adjustment a * (1 - w) :=
      mul_le_mul_of_nonneg_right (le_max_left _ _) (by linarith)
    have h2 : a * w ≤ max p.score_adjustment a * w :=
      mul_le_mul_of_nonneg_right (le_max_right _ _) (le_of_lt hwpos)
    have hsum : max p.score_adjustment a * (1 - w) + max p.score_adjustment a * w =
        max p.score_adjustment a := by ring
    linarith

/-- Witness for C3: creation on first feedback and count increment on the
second. -/
theorem C3_feedback_learning_rule_witness :
    record_feedback [] "sender" "x@y.com" (-(15/100)) =
      ([] ++ [{ patternType := "sender", patternValue := "x@y.com",
                score_adjustment := -(15/100), feedback_count := 1 }],
        { patternType := "sender", patternValue := "x@y.com",
          score_adjustment := -(15/100), feedback_count := 1 }) ∧
    (record_feedback
        [{ patternType := "sender", patternValue := "x@y.com",
           score_adjustment := -(15/100), feedback_count := 1 }]
        "sender" "x@y.com" (3/10)).2.feedback_count = 2 := by
  constructor
  · have h := (C3_feedback_learning_rule [] "sender" "x@y.com" (-(15/100))).1 rfl
    have hnorm : "x@y.com".toLower.trim = "x@y.com" := by with_unfolding_all decide
    rw [hnorm] at h
    simpa using h
  · obtain ⟨h2, hcount, -⟩ :=
      (C3_feedback_learning_rule
        [{ patternType := "sender", patternValue := "x@y.com",
           score_adjustment := -(15/100), feedback_count := 1 }]
        "sender" "x@y.com" (3/10)).2.1
        { patternType := "sender", patternValue := "x@y.com",
          score_adjustment := -(15/100), feedback_count := 1 }
        (by with_unfolding_all decide)
    rw [h2, hcount]

theorem mem_insertByScoreDesc {x r : ProcessedEmailRec} {l : List ProcessedEmailRec} :
    r ∈ insertByScoreDesc x l ↔ r = x ∨ r ∈ l := by
  induction l with
  | nil => simp [insertByScoreDesc]
  | cons y ys ih =>
    simp only [insertByScoreDesc]
    split_ifs with hc
    · simp [List.mem_cons]
    · simp only [List.mem_cons, ih]
      tauto

theorem insertByScoreDesc_perm (x : ProcessedEmailRec) (l : List ProcessedEmailRec) :
    (insertByScoreDesc x l).Perm (x :: l) := by
  induction l with
  | nil => simp [insertByScoreDesc]
  | cons y ys ih =>
    simp only [insertByScoreDesc]
    split_ifs with hc
    · exact List.Perm.refl _
    · exact (ih.cons y).trans (List.Perm.swap x y ys)

theorem sortByScoreDesc_perm (l : List ProcessedEmailRec) :
    (sortByScoreDesc l).Perm l := by
  induction l with
  | nil => exact List.Perm.refl _
  | cons x xs ih =>
    exact (insertByScoreDesc_perm x (sortByScoreDesc xs)).trans (ih.cons x)

theorem sorted_insertByScoreDesc (x : ProcessedEmailRec) (l : List ProcessedEmailRec)
    (h : List.Sorted (fun a b => b.importance_score ≤ a.importance_score) l) :
    List.Sorted (fun a b => b.importance_score ≤ a.importance_score)
      (insertByScoreDesc x l) := by
  induction l with
  | nil => simp [insertByScoreDesc]
  | cons y ys ih =>
    rw [List.sorted_cons] at h
    obtain ⟨hy, hys⟩ := h
    simp only [insertByScoreDesc]
    split_ifs with hc
    · rw [List.sorted_cons]
      refine ⟨?_, ?_⟩
      · intro b hb
        rcases List.mem_cons.mp hb with rfl | hb'
        · exact hc
        · exact le_trans (hy b hb') hc
      · rw [List.sorted_cons]
        exact ⟨hy, hys⟩
    · rw [List.sorted_cons]
      refine ⟨?_, ih hys⟩
      intro b hb
      rcases mem_insertByScoreDesc.mp hb with rfl | hb'
      · exact le_of_lt (lt_of_not_le hc)
      · exact hy b hb'

theorem sorted_sortByScoreDesc (l : List ProcessedEmailRec) :
    List.Sorted (fun a b => b.importance_score ≤ a.importance_score)
      (sortByScoreDesc l) := by
  induction l with
  | nil => simp [sortByScoreDesc]
  | cons x xs ih => exact sorted_insertByScoreDesc x _ ih

theorem filter_insertByScoreDesc_of_eq (x : ProcessedEmailRec)
    (l : List ProcessedEmailRec) (c : ℚ) (hx : x.importance_score = c) :
    (insertByScoreDesc x l).filter (fun r => r.importance_score == c) =
      x :: l.filter (fun r => r.importance_score == c) := by
  induction l with
  | nil => simp [insertByScoreDesc, List.filter, hx]
  | cons y ys ih =>
    simp only [insertByScoreDesc]
    split_ifs with hc
    · simp [List.filter_cons, hx]
    · have hy : (y.importance_score == c) = false := by
        have hlt : x.importance_score < y.importance_score := lt_of_not_le hc
        rw [hx] at hlt
        simpa [beq_eq_false_iff_ne] using ne_of_gt hlt
      simp [List.filter_cons, hy, ih]

theorem filter_insertByScoreDesc_of_ne (x : ProcessedEmailRec)
    (l : List ProcessedEmailRec) (c : ℚ) (hx : x.importance_score ≠ c) :
    (insertByScoreDesc x l).filter (fun r => r.importance_score == c) =
      l.filter (fun r => r.importance_score == c) := by
  have hxb : (x.importance_score == c) = false := by
    simpa [beq_eq_false_iff_ne] using hx
  induction l with
  | nil => simp [insertByScoreDesc, List.filter, hxb]
  | cons y ys ih =>
    simp only [insertByScoreDesc]
    split_ifs with hc
    · simp [List.filter_cons, hxb]
    · simp [List.filter_cons, ih]

theorem filter_sortByScoreDesc (l : List ProcessedEmailRec) (c : ℚ) :
    (sortByScoreDesc l).filter (fun r => r.importance_score == c) =
      l.filter (fun r => r.importance_score == c) := by
  induction l with
  | nil => rfl
  | cons x xs ih =>
    by_cases hx : x.importance_score = c
    · simp only [sortByScoreDesc]
      rw [filter_insertByScoreDesc_of_eq _ _ _ hx, ih]
      simp [List.filter_cons, hx]
    · have hxb : (x.importance_score == c) = false := by
        simpa [beq_eq_false_iff_ne] using hx
      simp only [sortByScoreDesc]
      rw [filter_insertByScoreDesc_of_ne _ _ _ hx, ih]
      simp [List.filter_cons, hxb]

/-- **C7.** `sendDigest` selects exactly the records with
`digest_eligible ∧ ¬digest_sent`, ordered by score descending with ties kept
in arrival (rowid) order; with none pending it is a no-op success with zero
included; on a successful send every selected record -- all candidates, not
just the 10 rendered -- is marked `digest_sent` at the current time and
linked to the single NotificationLog row of the digest; on a failed send
that log row is still persisted but no record is marked, so all remain
pending. -/
theorem C7_send_digest (st : DbState) (send : SendResult) (now : ℕ) :
    (get_pending_digest_emails st).Perm (st.records.filter pendingFilter) ∧
    List.Sorted (fun a b => b.importance_score ≤ a.importance_score)
      (get_pending_digest_emails st) ∧
    (∀ c : ℚ, (get_pending_digest_emails st).filter
        (fun r => r.importance_score == c) =
      (st.records.filter pendingFilter).filter
        (fun r => r.importance_score == c)) ∧
    (get_pending_digest_emails st = [] →
      send_digest st send now = (st, { success := true, emails_included := 0 })) ∧
    (send.success = true → get_pending_digest_emails st ≠ [] →
      send_digest st send now =
        ({ st with
            records := st.records.map fun r =>
              if pendingFilter r then
                { r with digest_sent := true, digest_sent_at := some now,
                         notifications := r.notifications ++ [st.nextLogId] }
              else r,
            logs := st.logs ++
              [{ id := st.nextLogId, notification_type := "digest",
                 title := "Email Digest (" ++
                   toString (get_pending_digest_emails st).length ++ " emails)",
                 message := ((build_digest_message
                   (get_pending_digest_emails st)).getD "").take 1000,
                 priority := -1, status := "sent", error_message := send.error }],
            nextLogId := st.nextLogId + 1 },
          { success := true,
            emails_included := (get_pending_digest_emails st).length })) ∧
    (send.success = false → get_pending_digest_emails st ≠ [] →
      (send_digest st send now).1.records = st.records ∧
      (send_digest st send now).1.logs = st.logs ++
        [{ id := st.nextLogId, notification_type := "digest",
           title := "Email Digest (" ++
             toString (get_pending_digest_emails st).length ++ " emails)",
           message := ((build_digest_message
             (get_pending_digest_emails st)).getD "").take 1000,
           priority := -1, status := "failed", error_message := send.error }] ∧
      (send_digest st send now).2 =
        { success := false, emails_included := 0, error := send.error }) := by
  refine ⟨sortByScoreDesc_perm _, sorted_sortByScoreDesc _,
    fun c => filter_sortByScoreDesc _ c, ?_, ?_, ?_⟩
  · intro hemp
    simp [send_digest, hemp]
  · intro hsend hne
    obtain ⟨m, hm⟩ : ∃ m, build_digest_message (get_pending_digest_emails st) =
        some m := by
      unfold build_digest_message
      rw [if_neg hne]
      exact ⟨_, rfl⟩
    simp [send_digest, if_neg hne, hm, hsend]
  · intro hsend hne
    obtain ⟨m, hm⟩ : ∃ m, build_digest_message (get_pending_digest_emails st) =
        some m := by
      unfold build_digest_message
      rw [if_neg hne]
      exact ⟨_, rfl⟩
    refine ⟨?_, ?_, ?_⟩ <;> simp [send_digest, if_neg hne, hm, hsend]

/-- Witness for C7 on a concrete state with two pending digest records. -/
theorem C7_send_digest_witness :
    (send_digest digestState sendOk 5).2.emails_included = 2 ∧
    send_digest digestState sendFail 5 =
      ((send_digest digestState sendFail 5).1,
        { success := false, emails_included := 0, error := some "timeout" }) := by
  constructor
  · have h := (C7_send_digest digestState sendOk 5).2.2.2.2.1 rfl
      (by with_unfolding_all decide)
    rw [h]
    with_unfolding_all decide
  · have h := (C7_send_digest digestState sendFail 5).2.2.2.2.2 rfl
      (by with_unfolding_all decide)
    exact Prod.ext rfl h.2.2

end EmailAlerter
